import Mathlib

/-!
Verification development for the `nfc-gatekeeper` repository.

The Python sources are shallowly embedded as pure Lean functions:

* `send_command`, `read_student_data`, `process_lock`, `process_card`
  embed `src/nfc_handler.py` (the live gate pipeline);
* `send_command_iface` embeds the variant in `src/interface.py`;
* `read_student_data_rd` embeds the variant in `src/read_data.py`;
* `get_current_session` embeds `src/mess_logic.py`;
* `process_entry` and `has_eaten` embed `src/main.py` / `src/database.py`;
* `lockCard` embeds the three-stage lock sequencer of `src/test/lock_card.py`.

Machine I/O (the PC/SC `transmit` call) is modelled by `TransmitResult`:
either a payload plus a two-byte status word, or a raised exception
(card removed / connection lost).  Wall-clock time is modelled in
milliseconds (for the debounce map) and in seconds-of-day (for the
session windows).  Byte strings are `List Nat` with values below 256.
-/

namespace NFCGate

abbrev Byte := Nat

/-- `config.STUDENT_DATA_PAGE` (src/config.py). -/
def STUDENT_DATA_PAGE : Byte := 0x04

/-- `config.LOCK_PAGE` (src/config.py). -/
def LOCK_PAGE : Byte := 0x28

/-- `config.LOCK_DATA` (src/config.py). -/
def LOCK_DATA : List Byte := [0xFF, 0xFF, 0xFF, 0xBD]

/-- `config.CMD_GET_UID` (src/config.py). -/
def CMD_GET_UID : List Byte := [0xFF, 0xCA, 0x00, 0x00, 0x00]

/-- `config.CMD_DISABLE_BEEP` (src/config.py). -/
def CMD_DISABLE_BEEP : List Byte := [0xFF, 0x00, 0x52, 0x00, 0x00]

/-- `config.CMD_BEEP_SUCCESS` (src/config.py). -/
def CMD_BEEP_SUCCESS : List Byte := [0xFF, 0x00, 0x40, 0x01, 0x04, 0x01, 0x01, 0x02, 0x02]

/-- `config.TESTING` (src/config.py): the relaxed testing-mode flag. -/
def TESTING : Bool := true

/-- The student-data read APDU built in `nfc_handler.read_student_data`. -/
def READ_STUDENT_APDU : List Byte := [0xFF, 0xB0, 0x00, STUDENT_DATA_PAGE, 0x10]

/-- The lock-status read APDU built in `nfc_handler.process_lock`. -/
def READ_LOCK_APDU : List Byte := [0xFF, 0xB0, 0x00, LOCK_PAGE, 0x04]

/-- The lock write APDU built in `nfc_handler.process_lock`. -/
def WRITE_LOCK_APDU : List Byte := [0xFF, 0xD6, 0x00, LOCK_PAGE, 4] ++ LOCK_DATA

/-- Result of one `connection.transmit(apdu)` call: either payload bytes
plus the two status-word bytes, or a raised exception (tag removed,
connection broken, reader error). -/
inductive TransmitResult where
  | ok (data : List Byte) (sw1 sw2 : Byte)
  | exn
deriving DecidableEq, Repr

/-- `nfc_handler.send_command` (src/nfc_handler.py lines 16-23): returns
`(True, data)` exactly when the status word is `90 00`; every other
status word and every raised exception gives `(False, None)`. -/
def send_command : TransmitResult → Bool × Option (List Byte)
  | .ok data sw1 sw2 => if sw1 = 0x90 ∧ sw2 = 0x00 then (true, some data) else (false, none)
  | .exn => (false, none)

/-- `interface.send_command` (src/interface.py lines 110-127): on a
well-formed response it returns `(success, data)` keeping the payload
even when the status word is not `90 00`; only a raised
`CardConnectionException` / `NoCardException` / other exception yields
`(False, None)`. -/
def send_command_iface : TransmitResult → Bool × Option (List Byte)
  | .ok data sw1 sw2 => (decide (sw1 = 0x90 ∧ sw2 = 0x00), some data)
  | .exn => (false, none)

/-- `extract_ascii` (src/nfc_handler.py line 25): keep the bytes of
`data[start : start+len]` that lie in the printable ASCII range
`0x20`–`0x7E`.  The Python function returns the corresponding string;
we keep the byte values, which is the same data up to the injective
`chr` map. -/
def extract_ascii (data : List Byte) (start len : Nat) : List Byte :=
  ((data.drop start).take len).filter (fun b => decide (32 ≤ b) && decide (b ≤ 126))

/-- Python `str.strip()` on a string of printable-ASCII characters:
the only whitespace character in the range `0x20`–`0x7E` is the space
`0x20`, so stripping removes leading and trailing spaces. -/
def stripSpaces (l : List Byte) : List Byte :=
  ((l.dropWhile (fun b => b == 32)).reverse.dropWhile (fun b => b == 32)).reverse

/-- `nfc_handler.read_student_data` (src/nfc_handler.py lines 28-41),
given the transmit result of the 16-byte read at page 4: fails unless
the command succeeded with at least 12 data bytes; slices three 4-byte
fields, strips non-printable bytes from each, concatenates, then
applies Python `.strip()` and returns `None` when the stripped result
is empty. -/
def read_student_data (r : TransmitResult) : Option (List Byte) :=
  match send_command r with
  | (true, some data) =>
    if data.length < 12 then none
    else
      let year := extract_ascii data 0 4
      let code := extract_ascii data 4 4
      let sid := extract_ascii data 8 4
      let result := stripSpaces (year ++ code ++ sid)
      if result = [] then none else some result
  | _ => none

/-- `read_data.read_student_data` (src/read_data.py lines 11-46): the
script variant.  It checks only the status word (no length guard, no
`.strip()`), concatenates the three filtered fields and returns `None`
exactly when the concatenation is empty. -/
def read_student_data_rd (r : TransmitResult) : Option (List Byte) :=
  match r with
  | .exn => none
  | .ok data sw1 sw2 =>
    if sw1 = 0x90 ∧ sw2 = 0x00 then
      let year := extract_ascii data 0 4
      let code := extract_ascii data 4 4
      let sid := extract_ascii data 8 4
      let result := year ++ code ++ sid
      if result = [] then none else some result
    else none

/-- `nfc_handler.process_lock` (src/nfc_handler.py lines 43-56), given
the transmit results for the lock-page read and (if issued) the lock
write.  Returns the Boolean the Python function returns together with
the list of APDUs it transmitted, in order. -/
def process_lock (lockRead lockWrite : TransmitResult) : Bool × List (List Byte) :=
  match send_command lockRead with
  | (true, some data) =>
    if 3 ≤ data.length ∧ data.getD 1 0 = 0xFF ∧ data.getD 2 0 = 0xFF then
      (true, [READ_LOCK_APDU])
    else
      ((send_command lockWrite).1, [READ_LOCK_APDU, WRITE_LOCK_APDU])
  | _ => ((send_command lockWrite).1, [READ_LOCK_APDU, WRITE_LOCK_APDU])

/-! ### Session windows (src/mess_logic.py) -/

/-- `MessManager.SESSIONS` (src/mess_logic.py lines 10-15), with the
clock bounds converted to seconds of day.  The list order is the dict
insertion order, which Python preserves during iteration. -/
def sessionWindows : List (String × Nat × Nat) :=
  [("BREAKFAST", 7 * 3600 + 30 * 60, 10 * 3600),
   ("LUNCH", 12 * 3600, 15 * 3600),
   ("SNACKS", 17 * 3600, 18 * 3600 + 30 * 60),
   ("DINNER", 19 * 3600 + 30 * 60, 22 * 3600)]

/-- The comparison `start_time <= current_time <= end_time` of
src/mess_logic.py line 27, on seconds of day (inclusive bounds). -/
def inWindow (t : Nat) (s : String × Nat × Nat) : Bool :=
  decide (s.2.1 ≤ t) && decide (t ≤ s.2.2)

/-- `MessManager.get_current_session` (src/mess_logic.py lines 17-34):
linear scan of the configured windows in order; first window whose
inclusive bounds contain the current time wins; otherwise the fallback
label `"TEST"` when the testing flag is set, and `None` otherwise.
`testing` is the imported `config.TESTING` value (`true` in
src/config.py). -/
def get_current_session (testing : Bool) (t : Nat) : Option String :=
  match sessionWindows.find? (inWindow t) with
  | some s => some s.1
  | none => if testing then some "TEST" else none

/-! ### Mess-entry gate (src/main.py, src/database.py) -/

/-- The distinguished guest identity of src/main.py. -/
def GUEST_ID : String := "IIITKOTAUSER"

/-- One row of the monthly `mess_entries` table (src/database.py):
student id, session name, and the day part of its `TIMESTAMP`
(`CURRENT_TIMESTAMP` at insertion time), as an abstract day number. -/
structure MessEntry where
  student : String
  session : String
  day : Nat
deriving DecidableEq, Repr

/-- `database.has_eaten` (src/database.py lines 255-270): true when the
store holds a row for this student and session dated today. -/
def has_eaten (store : List MessEntry) (sid session : String) (today : Nat) : Bool :=
  store.any (fun e => e.student == sid && e.session == session && e.day == today)

/-- `database.log_mess_entry` (src/database.py lines 239-252): attempt
to insert one row timestamped today.  `insertOk` models whether the
SQLite INSERT raises; on an exception the `with`-block rolls back, the
store is unchanged and the function returns `False`. -/
def log_mess_entry (store : List MessEntry) (sid session : String) (today : Nat)
    (insertOk : Bool) : Bool × List MessEntry :=
  if insertOk then (true, store ++ [⟨sid, session, today⟩]) else (false, store)

/-- `main.process_entry` (src/main.py lines 69-131), reduced to its
decision kernel: given the store, today, the scanned id, the result of
`MessManager.get_current_session` and whether the INSERT succeeds,
return the `status` field of the response and the updated store. -/
def process_entry (store : List MessEntry) (today : Nat) (sid : String)
    (session? : Option String) (insertOk : Bool) : String × List MessEntry :=
  match session? with
  | none => ("error", store)
  | some session =>
    if sid ≠ GUEST_ID ∧ has_eaten store sid session today then
      ("denied", store)
    else
      match log_mess_entry store sid session today insertOk with
      | (true, store1) => ("success", store1)
      | (false, store1) => ("error", store1)

/-! ### The card pipeline (src/nfc_handler.py, `GateObserver.process_card`) -/

/-- `debounce_time = 3.0` seconds (src/nfc_handler.py line 14), in
milliseconds. -/
def debounce_ms : Nat := 3000

/-- The guest identity as the byte string read from the tag. -/
def GUEST_BYTES : List Byte := [73, 73, 73, 84, 75, 79, 84, 65, 85, 83, 69, 82]

/-- Lookup in the `last_scanned_uid` dict.  The Python dict is keyed by
`toHexString(uid_data)`; hex rendering is injective on byte lists, so
keying by the raw bytes is the same map. -/
def lookupUid : List (List Byte × Nat) → List Byte → Option Nat
  | [], _ => none
  | (k, v) :: rest, key => if k = key then some v else lookupUid rest key

/-- `last_scanned_uid[card_uid] = now` (src/nfc_handler.py line 110). -/
def insertUid : List (List Byte × Nat) → List Byte → Nat → List (List Byte × Nat)
  | [], key, v => [(key, v)]
  | (k, v0) :: rest, key, v =>
    if k = key then (key, v) :: rest else (k, v0) :: insertUid rest key v

/-- The environment one `process_card` invocation runs against: the
transmit result of each command it may send, the `database.get_student`
row (the student's name, or `none` when unregistered), and whether
`database.log_system_message` commits (its SQLite calls are not wrapped
in a `try`, so a database exception there propagates to the outer
handler). `connectOk` models `connection.connect()` itself. -/
structure CardEnv where
  connectOk : Bool
  uidRead : TransmitResult
  beepDisable : TransmitResult
  dataRead : TransmitResult
  lockRead : TransmitResult
  lockWrite : TransmitResult
  student : Option String
  logSystemOk : Bool
  beep : TransmitResult
deriving DecidableEq, Repr

/-- Observable result of one `process_card` invocation: the updated
`last_scanned_uid` map, the APDUs transmitted in order, and the
`status` field of the UI event scheduled at step 8 (`none` when the
invocation returned or raised before scheduling it). -/
structure PCResult where
  map : List (List Byte × Nat)
  sent : List (List Byte)
  eventStatus : Option String
deriving DecidableEq, Repr

/-- Steps 3-8 of `GateObserver.process_card` (src/nfc_handler.py lines
112-156), entered once the debounce check has passed and the timestamp
has been recorded: disable the auto-beep, read the student data (abort
silently when unreadable), run `process_lock` (result ignored), consult
the student table, log, send the success tone, schedule the UI event
with status `"success"` when the student is registered or is the guest
id and `"warning"` otherwise.  When `log_system_message` raises, the
exception jumps to the outer handler before the tone is sent. -/
def process_card_pipeline (env : CardEnv) (map1 : List (List Byte × Nat)) : PCResult :=
  let pre := [CMD_GET_UID, CMD_DISABLE_BEEP, READ_STUDENT_APDU]
  match read_student_data env.dataRead with
  | none => { map := map1, sent := pre, eventStatus := none }
  | some sid =>
    let lockSent := (process_lock env.lockRead env.lockWrite).2
    if env.logSystemOk then
      let status := if env.student.isSome ∨ sid = GUEST_BYTES then "success" else "warning"
      { map := map1,
        sent := pre ++ lockSent ++ [CMD_BEEP_SUCCESS],
        eventStatus := some status }
    else
      { map := map1, sent := pre ++ lockSent, eventStatus := none }

/-- `GateObserver.process_card` (src/nfc_handler.py lines 77-164) as a
state transformer on the `last_scanned_uid` map.  `now` is
`time.time()` in milliseconds.  Read the UID (abort on failure),
apply the debounce check — a UID seen less than `debounce_ms` ago is
skipped with no transport operation beyond the UID read — record the
timestamp, and run the pipeline. -/
def process_card (env : CardEnv) (map0 : List (List Byte × Nat)) (now : Nat) : PCResult :=
  if ¬env.connectOk then { map := map0, sent := [], eventStatus := none }
  else
    match send_command env.uidRead with
    | (true, some uid) =>
      match lookupUid map0 uid with
      | some last =>
        if now - last < debounce_ms then
          { map := map0, sent := [CMD_GET_UID], eventStatus := none }
        else process_card_pipeline env (insertUid map0 uid now)
      | none => process_card_pipeline env (insertUid map0 uid now)
    | _ => { map := map0, sent := [CMD_GET_UID], eventStatus := none }

/-! ### The three-stage lock sequencer (src/test/lock_card.py) -/

/-- A 16-byte read starting at `page` (`READ_16_BYTES_APDU_TPL` with
byte 3 set, src/test/lock_card.py line 8). -/
def READ16 (page : Byte) : List Byte := [0xFF, 0xB0, 0x00, page, 0x10]

/-- A 4-byte page write (`WRITE_PAGE_APDU_TPL` with page and data set,
src/test/lock_card.py line 9). -/
def WRITE4 (page : Byte) (d : List Byte) : List Byte := [0xFF, 0xD6, 0x00, page, 0x04] ++ d

/-- The transmit results the lock script consumes, in program order. -/
structure LockEnv where
  initRead : TransmitResult
  confirmPartial : Bool
  staticWrite1 : TransmitResult
  staticWrite2 : TransmitResult
  staticVerifyRead : TransmitResult
  dynWrite1 : TransmitResult
  dynWrite2 : TransmitResult
  dynVerifyRead : TransmitResult
  cfgRead : TransmitResult
  cfgWrite : TransmitResult
  cfgVerifyRead : TransmitResult
deriving DecidableEq, Repr

/-- How one run of src/test/lock_card.py ends.  `staticVerifyFailed`
and `dynVerifyFailed` are the `LockVerificationFailed` reports for the
two data stages; `completed` carries whether the optional config stage
verified (its failure is only warned about).  `transportLost` is the
`CardConnectionException` handler; `crashed` is an uncaught slicing
error on a short payload (generic handler). -/
inductive LockOutcome where
  | cancelled
  | initReadFailed
  | staticWriteFailed (attempt : Nat)
  | staticVerifyFailed
  | dynWriteFailed (attempt : Nat)
  | dynVerifyFailed
  | cfgReadFailed
  | completed (cfgVerified : Bool)
  | transportLost
  | crashed
deriving DecidableEq, Repr

/-- Config-lock stage (src/test/lock_card.py lines 184-236): read page
`0xE4`, set bit 6 of byte 0, write it back; a write failure or an
unverified CFGLCK bit is only warned about — the sequence still
completes. -/
def lockConfig (env : LockEnv) (t : List (List Byte)) : LockOutcome × List (List Byte) :=
  let t1 := t ++ [READ16 0xE4]
  match env.cfgRead with
  | .exn => (.transportLost, t1)
  | .ok data sw1 sw2 =>
    if ¬(sw1 = 0x90 ∧ sw2 = 0x00) then (.cfgReadFailed, t1)
    else if data.length < 4 then (.crashed, t1)
    else
      let cfg := [data.getD 0 0 ||| 0x40, data.getD 1 0, data.getD 2 0, data.getD 3 0]
      let t2 := t1 ++ [WRITE4 0xE4 cfg]
      match env.cfgWrite with
      | .exn => (.transportLost, t2)
      | .ok _ w1 w2 =>
        if w1 = 0x90 ∧ w2 = 0x00 then
          let t3 := t2 ++ [READ16 0xE4]
          match env.cfgVerifyRead with
          | .exn => (.transportLost, t3)
          | .ok vd _ _ =>
            if vd.length < 4 then (.crashed, t3)
            else (.completed (decide (vd.getD 0 0 &&& 0x40 = 0x40)), t3)
        else (.completed false, t2)

/-- Dynamic-lock stage (src/test/lock_card.py lines 139-181): write
`FF FF FF 00` to page `0xE2` twice (abort on a bad status word), then
re-read the block at `0xE0` and require bytes 8-10 (page `0xE2`, bytes
0-2) to read `FF FF FF`; on verification failure abort before the
config stage. -/
def lockDynamic (env : LockEnv) (t : List (List Byte)) : LockOutcome × List (List Byte) :=
  let dynApdu := WRITE4 0xE2 [0xFF, 0xFF, 0xFF, 0x00]
  let t1 := t ++ [dynApdu]
  match env.dynWrite1 with
  | .exn => (.transportLost, t1)
  | .ok _ a1 a2 =>
    if ¬(a1 = 0x90 ∧ a2 = 0x00) then (.dynWriteFailed 1, t1)
    else
      let t2 := t1 ++ [dynApdu]
      match env.dynWrite2 with
      | .exn => (.transportLost, t2)
      | .ok _ b1 b2 =>
        if ¬(b1 = 0x90 ∧ b2 = 0x00) then (.dynWriteFailed 2, t2)
        else
          let t3 := t2 ++ [READ16 0xE0]
          match env.dynVerifyRead with
          | .exn => (.transportLost, t3)
          | .ok vd _ _ =>
            if vd.length < 12 then (.crashed, t3)
            else if ¬(vd.getD 8 0 = 0xFF ∧ vd.getD 9 0 = 0xFF ∧ vd.getD 10 0 = 0xFF) then
              (.dynVerifyFailed, t3)
            else lockConfig env t3

/-- The lock sequencer of src/test/lock_card.py after the operator's
`LOCK` confirmation: read pages 0-3 (page 2 = bytes 8-11), optionally
confirm when the static lock bytes are already nonzero, write
`[b0, b1, FF, FF]` to page 2 twice (aborting on a bad status word),
re-read and require bytes 10-11 to be `FF FF` — aborting the whole
sequence on verification failure — then run the dynamic and config
stages.  Returns the outcome and the APDUs transmitted, in order. -/
def lockCard (env : LockEnv) : LockOutcome × List (List Byte) :=
  let t0 := [READ16 0x00]
  match env.initRead with
  | .exn => (.transportLost, t0)
  | .ok data sw1 sw2 =>
    if ¬(sw1 = 0x90 ∧ sw2 = 0x00) then (.initReadFailed, t0)
    else if data.length < 12 then (.crashed, t0)
    else if (¬(data.getD 10 0 = 0 ∧ data.getD 11 0 = 0)) ∧ ¬env.confirmPartial then
      (.cancelled, t0)
    else
      let lockData := [data.getD 8 0, data.getD 9 0, 0xFF, 0xFF]
      let t1 := t0 ++ [WRITE4 0x02 lockData]
      match env.staticWrite1 with
      | .exn => (.transportLost, t1)
      | .ok _ a1 a2 =>
        if ¬(a1 = 0x90 ∧ a2 = 0x00) then (.staticWriteFailed 1, t1)
        else
          let t2 := t1 ++ [WRITE4 0x02 lockData]
          match env.staticWrite2 with
          | .exn => (.transportLost, t2)
          | .ok _ b1 b2 =>
            if ¬(b1 = 0x90 ∧ b2 = 0x00) then (.staticWriteFailed 2, t2)
            else
              let t3 := t2 ++ [READ16 0x00]
              match env.staticVerifyRead with
              | .exn => (.transportLost, t3)
              | .ok vd _ _ =>
                if vd.length < 12 then (.crashed, t3)
                else if ¬(vd.getD 10 0 = 0xFF ∧ vd.getD 11 0 = 0xFF) then
                  (.staticVerifyFailed, t3)
                else lockDynamic env t3

/-- A write command (byte 1 = `0xD6`) addressed to the dynamic-lock
page `0xE2` of the NTAG216. -/
def isDynLockWrite (c : List Byte) : Bool :=
  decide (c.getD 1 0 = 0xD6) && decide (c.getD 3 0 = 0xE2)

/-- A concrete environment for the unknown-student run: UID and data
reads succeed, the tag holds the identity `2022KUCP9999`, the lock page
already reads locked, the student table has no row for the id, and all
database logging commits. -/
def unknownStudentEnv : CardEnv where
  connectOk := true
  uidRead := .ok [0x04, 0xA1, 0xB2, 0xC3] 0x90 0x00
  beepDisable := .ok [] 0x90 0x00
  dataRead := .ok [50, 48, 50, 50, 75, 85, 67, 80, 57, 57, 57, 57, 0, 0, 0, 0] 0x90 0x00
  lockRead := .ok [0x00, 0xFF, 0xFF, 0xBD] 0x90 0x00
  lockWrite := .ok [] 0x90 0x00
  student := none
  logSystemOk := true
  beep := .ok [] 0x90 0x00

/-- A concrete card environment whose every transport command succeeds
and whose student is registered. -/
def okStudentEnv : CardEnv where
  connectOk := true
  uidRead := .ok [0x04, 0xA1, 0xB2, 0xC3] 0x90 0x00
  beepDisable := .ok [] 0x90 0x00
  dataRead := .ok [50, 48, 50, 50, 75, 85, 67, 80, 49, 48, 51, 51, 0, 0, 0, 0] 0x90 0x00
  lockRead := .ok [0x00, 0xFF, 0xFF, 0xBD] 0x90 0x00
  lockWrite := .ok [] 0x90 0x00
  student := some "Some Student"
  logSystemOk := true
  beep := .ok [] 0x90 0x00

/-- A concrete card environment in which the UID read succeeds but the
student-data read raises (tag pulled mid-interaction). -/
def unreadableEnv : CardEnv where
  connectOk := true
  uidRead := .ok [0x04, 0xA1, 0xB2, 0xC3] 0x90 0x00
  beepDisable := .ok [] 0x90 0x00
  dataRead := .exn
  lockRead := .exn
  lockWrite := .exn
  student := none
  logSystemOk := true
  beep := .exn

/-- A concrete lock-script environment in which every command up to the
static stage succeeds but the verification read-back still shows the
lock bytes unset. -/
def staticVerifyFailEnv : LockEnv where
  initRead := .ok (List.replicate 16 0) 0x90 0x00
  confirmPartial := true
  staticWrite1 := .ok [] 0x90 0x00
  staticWrite2 := .ok [] 0x90 0x00
  staticVerifyRead := .ok (List.replicate 16 0) 0x90 0x00
  dynWrite1 := .exn
  dynWrite2 := .exn
  dynVerifyRead := .exn
  cfgRead := .exn
  cfgWrite := .exn
  cfgVerifyRead := .exn

/-! ## Helper lemmas -/

theorem lookupUid_insertUid_self :
    ∀ (m : List (List Byte × Nat)) (k : List Byte) (v : Nat),
      lookupUid (insertUid m k v) k = some v
  | [], k, v => by simp [insertUid, lookupUid]
  | (k0, v0) :: rest, k, v => by
    by_cases h : k0 = k
    · simp [insertUid, lookupUid, h]
    · simp [insertUid, lookupUid, h, lookupUid_insertUid_self rest k v]

theorem process_card_pipeline_map (env : CardEnv) (map1 : List (List Byte × Nat)) :
    (process_card_pipeline env map1).map = map1 := by
  unfold process_card_pipeline
  rcases read_student_data env.dataRead with _ | sid
  · rfl
  · dsimp only
    split <;> rfl

theorem process_card_pipeline_entered (env : CardEnv) (map1 : List (List Byte × Nat)) :
    CMD_DISABLE_BEEP ∈ (process_card_pipeline env map1).sent := by
  unfold process_card_pipeline
  rcases read_student_data env.dataRead with _ | sid
  · simp
  · dsimp only
    split <;> simp

theorem process_card_entered (env : CardEnv) (map0 : List (List Byte × Nat))
    (now : Nat) (uid : List Byte)
    (hc : env.connectOk = true)
    (h1 : send_command env.uidRead = (true, some uid))
    (hdeb : ∀ last, lookupUid map0 uid = some last → debounce_ms ≤ now - last) :
    process_card env map0 now = process_card_pipeline env (insertUid map0 uid now) := by
  unfold process_card
  rw [hc, h1]
  rcases hl : lookupUid map0 uid with _ | last
  · simp [hl]
  · have hge := hdeb last hl
    simp [hl, Nat.not_lt.mpr hge]

theorem process_card_skipped (env : CardEnv) (map0 : List (List Byte × Nat))
    (now last : Nat) (uid : List Byte)
    (hc : env.connectOk = true)
    (h1 : send_command env.uidRead = (true, some uid))
    (hl : lookupUid map0 uid = some last)
    (hlt : now - last < debounce_ms) :
    process_card env map0 now = { map := map0, sent := [CMD_GET_UID], eventStatus := none } := by
  unfold process_card
  rw [hc, h1]
  simp [hl, hlt]

/-! ## Claim theorems -/

/-- Claim C2, counterexample: with an active session and the guest
identity, a failing mess-entry INSERT makes `process_entry` return
status `"error"`, not the `"success"` the claim requires
unconditionally. -/
theorem C2_counterexample :
    (process_entry [] 0 "IIITKOTAUSER" (some "LUNCH") false).1 = "error" ∧
    (process_entry [] 0 "IIITKOTAUSER" (some "LUNCH") false).1 ≠ "success" := by
  constructor <;> decide

/-- Claim C2 (amended): for every call to `process_entry` with an
active session, provided the mess-entry insertion succeeds, the guest
identity gets status `"success"` regardless of prior consumption, and
every other identity gets `"denied"` when `has_eaten` holds and
`"success"` otherwise. -/
theorem C2_gate_decision (store : List MessEntry) (today : Nat) (sid : String)
    (session : String) (insertOk : Bool) (hins : insertOk = true) :
    (process_entry store today sid (some session) insertOk).1 =
      if sid = GUEST_ID then "success"
      else if has_eaten store sid session today then "denied"
      else "success" := by
  subst hins
  unfold process_entry log_mess_entry
  by_cases hg : sid = GUEST_ID
  · simp [hg]
  · by_cases he : has_eaten store sid session today <;> simp [hg, he]

/-- Witness for `C2_gate_decision` at a concrete non-guest identity
with an empty store. -/
theorem C2_gate_decision_witness :
    (true = true) ∧
    (process_entry [] 0 "2022KUCP1033" (some "LUNCH") true).1 =
      (if ("2022KUCP1033" : String) = GUEST_ID then "success"
       else if has_eaten [] "2022KUCP1033" "LUNCH" 0 then "denied"
       else "success") :=
  ⟨rfl, C2_gate_decision [] 0 "2022KUCP1033" "LUNCH" true rfl⟩

/-- Claim C3: `get_current_session` scans the configured windows in
order; when some window contains the time (inclusively at both bounds)
it returns such a window's name, and when none does it returns the
fallback `"TEST"` exactly when the testing flag is enabled and `none`
otherwise. -/
theorem C3_current_session (testing : Bool) (t : Nat) :
    ((∃ s ∈ sessionWindows, inWindow t s = true) →
      ∃ s ∈ sessionWindows, s.2.1 ≤ t ∧ t ≤ s.2.2 ∧
        get_current_session testing t = some s.1) ∧
    ((∀ s ∈ sessionWindows, inWindow t s = false) →
      get_current_session testing t = if testing then some "TEST" else none) := by
  unfold get_current_session
  rcases hf : sessionWindows.find? (inWindow t) with _ | s
  · have hnone := List.find?_eq_none.mp hf
    constructor
    · rintro ⟨s, hs, hw⟩
      exact absurd hw (hnone s hs)
    · intro _
      rfl
  · have hmem := List.mem_of_find?_eq_some hf
    have hw := List.find?_some hf
    constructor
    · intro _
      refine ⟨s, hmem, ?_, ?_, rfl⟩
      · have := (Bool.and_eq_true _ _).mp hw
        exact of_decide_eq_true this.1
      · have := (Bool.and_eq_true _ _).mp hw
        exact of_decide_eq_true this.2
    · intro hall
      exact absurd hw (by simp [hall s hmem])

/-- Witness for `C3_current_session`: at 08:00 the scan finds the
BREAKFAST window. -/
theorem C3_current_session_witness :
    ∃ s ∈ sessionWindows, s.2.1 ≤ 8 * 3600 ∧ 8 * 3600 ≤ s.2.2 ∧
      get_current_session true (8 * 3600) = some s.1 :=
  (C3_current_session true (8 * 3600)).1 ⟨("BREAKFAST", 27000, 36000), by decide, by decide⟩

/-- Claim C9: a mess-entry row is inserted by `process_entry` exactly
when the returned status is `"success"`; on a denied outcome, a
missing session, or a failed insertion the store is unchanged. -/
theorem C9_insert_iff_success (store : List MessEntry) (today : Nat) (sid : String)
    (session? : Option String) (insertOk : Bool) :
    ((process_entry store today sid session? insertOk).1 = "success" →
      ∃ session, session? = some session ∧
        (process_entry store today sid session? insertOk).2 =
          store ++ [⟨sid, session, today⟩]) ∧
    ((process_entry store today sid session? insertOk).1 ≠ "success" →
      (process_entry store today sid session? insertOk).2 = store) := by
  rcases session? with _ | session
  · exact ⟨fun h => absurd h (by simp [process_entry]), fun _ => rfl⟩
  · by_cases hd : sid ≠ GUEST_ID ∧ has_eaten store sid session today = true
    · have he : process_entry store today sid (some session) insertOk = ("denied", store) := by
        simp only [process_entry]
        rw [if_pos hd]
      rw [he]
      exact ⟨fun h => absurd h (by simp), fun _ => rfl⟩
    · rcases insertOk with _ | _
      · have he : process_entry store today sid (some session) false = ("error", store) := by
          simp only [process_entry, log_mess_entry]
          rw [if_neg hd]
          rfl
        rw [he]
        exact ⟨fun h => absurd h (by simp), fun _ => rfl⟩
      · have he : process_entry store today sid (some session) true
            = ("success", store ++ [⟨sid, session, today⟩]) := by
          simp only [process_entry, log_mess_entry]
          rw [if_neg hd]
          rfl
        rw [he]
        exact ⟨fun _ => ⟨session, rfl, rfl⟩, fun h => absurd rfl h⟩

/-- Witness for `C9_insert_iff_success`: a fresh identity in an empty
store with a successful insertion appends exactly one row. -/
theorem C9_insert_iff_success_witness :
    ∃ session, (some "LUNCH" : Option String) = some session ∧
      (process_entry [] 0 "2022KUCP1033" (some "LUNCH") true).2 =
        [] ++ [⟨"2022KUCP1033", session, 0⟩] :=
  (C9_insert_iff_success [] 0 "2022KUCP1033" (some "LUNCH") true).1 (by decide)

theorem extract_ascii_eq_nil (data : List Byte) (start len : Nat)
    (h : ∀ b ∈ data, b < 32 ∨ 126 < b) : extract_ascii data start len = [] := by
  unfold extract_ascii
  rw [List.filter_eq_nil_iff]
  intro b hb
  have hbd : b ∈ data := List.drop_subset _ _ (List.take_subset _ _ hb)
  have hout := h b hbd
  simp only [Bool.and_eq_true, decide_eq_true_eq]
  intro hcontra
  rcases hout with h1 | h1
  · exact absurd hcontra.1 (Nat.not_le.mpr h1)
  · exact absurd hcontra.2 (Nat.not_le.mpr h1)

/-- Claim C5, counterexample: a 16-byte payload of spaces (printable
`0x20`) yields a non-empty 12-byte concatenation, yet the live decoder
returns invalid because of the final Python `.strip()`. -/
theorem C5_counterexample :
    read_student_data (.ok (List.replicate 16 32) 0x90 0x00) = none ∧
    extract_ascii (List.replicate 16 32) 0 4 ++ extract_ascii (List.replicate 16 32) 4 4 ++
      extract_ascii (List.replicate 16 32) 8 4 ≠ [] := by
  constructor <;> decide

/-- Claim C5 (amended): on a successful 12-byte-or-longer read, the
decoder strips non-printable bytes from each 4-byte field,
concatenates, trims surrounding spaces, and returns invalid exactly
when the trimmed concatenation is empty; in particular a block of
bytes all outside the printable range decodes to invalid. -/
theorem C5_decode (data : List Byte) (h : 12 ≤ data.length) :
    (read_student_data (.ok data 0x90 0x00) = none ↔
      stripSpaces (extract_ascii data 0 4 ++ extract_ascii data 4 4 ++
        extract_ascii data 8 4) = []) ∧
    (∀ res, read_student_data (.ok data 0x90 0x00) = some res →
      res = stripSpaces (extract_ascii data 0 4 ++ extract_ascii data 4 4 ++
        extract_ascii data 8 4)) ∧
    ((∀ b ∈ data, b < 32 ∨ 126 < b) → read_student_data (.ok data 0x90 0x00) = none) := by
  have hs : send_command (.ok data 0x90 0x00) = (true, some data) := by
    simp [send_command]
  have he : read_student_data (.ok data 0x90 0x00) =
      (if stripSpaces (extract_ascii data 0 4 ++ extract_ascii data 4 4 ++
          extract_ascii data 8 4) = []
       then none
       else some (stripSpaces (extract_ascii data 0 4 ++ extract_ascii data 4 4 ++
          extract_ascii data 8 4))) := by
    simp [read_student_data, hs, Nat.not_lt.mpr h]
  refine ⟨?_, ?_, ?_⟩
  · rw [he]
    by_cases hse : stripSpaces (extract_ascii data 0 4 ++ extract_ascii data 4 4 ++
        extract_ascii data 8 4) = [] <;> simp [hse]
  · intro res hres
    rw [he] at hres
    by_cases hse : stripSpaces (extract_ascii data 0 4 ++ extract_ascii data 4 4 ++
        extract_ascii data 8 4) = []
    · rw [if_pos hse] at hres
      cases hres
    · rw [if_neg hse] at hres
      exact (Option.some_injective _ hres).symm
  · intro hall
    rw [he, extract_ascii_eq_nil data 0 4 hall, extract_ascii_eq_nil data 4 4 hall,
      extract_ascii_eq_nil data 8 4 hall]
    rfl

/-- Witness for `C5_decode` at the concrete identity block
`2022KUCP1033` padded to 16 bytes. -/
theorem C5_decode_witness :
    12 ≤ ([50, 48, 50, 50, 75, 85, 67, 80, 49, 48, 51, 51, 0, 0, 0, 0] : List Byte).length ∧
    ((read_student_data (.ok [50, 48, 50, 50, 75, 85, 67, 80, 49, 48, 51, 51, 0, 0, 0, 0]
        0x90 0x00) = none ↔
      stripSpaces (extract_ascii [50, 48, 50, 50, 75, 85, 67, 80, 49, 48, 51, 51, 0, 0, 0, 0] 0 4 ++
        extract_ascii [50, 48, 50, 50, 75, 85, 67, 80, 49, 48, 51, 51, 0, 0, 0, 0] 4 4 ++
        extract_ascii [50, 48, 50, 50, 75, 85, 67, 80, 49, 48, 51, 51, 0, 0, 0, 0] 8 4) = []) ∧
    (∀ res, read_student_data (.ok [50, 48, 50, 50, 75, 85, 67, 80, 49, 48, 51, 51, 0, 0, 0, 0]
        0x90 0x00) = some res →
      res = stripSpaces (extract_ascii [50, 48, 50, 50, 75, 85, 67, 80, 49, 48, 51, 51, 0, 0, 0, 0] 0 4 ++
        extract_ascii [50, 48, 50, 50, 75, 85, 67, 80, 49, 48, 51, 51, 0, 0, 0, 0] 4 4 ++
        extract_ascii [50, 48, 50, 50, 75, 85, 67, 80, 49, 48, 51, 51, 0, 0, 0, 0] 8 4)) ∧
    ((∀ b ∈ ([50, 48, 50, 50, 75, 85, 67, 80, 49, 48, 51, 51, 0, 0, 0, 0] : List Byte),
        b < 32 ∨ 126 < b) →
      read_student_data (.ok [50, 48, 50, 50, 75, 85, 67, 80, 49, 48, 51, 51, 0, 0, 0, 0]
        0x90 0x00) = none)) :=
  ⟨by decide, C5_decode [50, 48, 50, 50, 75, 85, 67, 80, 49, 48, 51, 51, 0, 0, 0, 0] (by decide)⟩

/-- Claim C6, counterexample: in the live handler a transport-level
exception and the well-formed non-success status word `63 00` produce
the identical caller-visible value `(False, None)` — the two
conditions are not distinct. -/
theorem C6_counterexample :
    send_command (.ok [] 0x63 0x00) = send_command .exn ∧
    send_command .exn = (false, none) := by
  constructor <;> decide

/-- Claim C6 (amended): `nfc_handler.send_command` collapses every
non-success status word and every transport loss into the same value
`(False, None)`, so its callers cannot distinguish the two; only the
`interface.py` variant preserves the payload on a well-formed failure
(`(False, data)` versus `(False, None)` on transport loss). -/
theorem C6_failure_collapse (d : List Byte) (sw1 sw2 : Byte)
    (h : ¬(sw1 = 0x90 ∧ sw2 = 0x00)) :
    send_command (.ok d sw1 sw2) = send_command .exn ∧
    (send_command_iface (.ok d sw1 sw2)).2 = some d ∧
    (send_command_iface .exn).2 = none := by
  refine ⟨?_, rfl, rfl⟩
  simp [send_command, h]

/-- Witness for `C6_failure_collapse` at status word `63 00`. -/
theorem C6_failure_collapse_witness :
    ¬((0x63 : Byte) = 0x90 ∧ (0x00 : Byte) = 0x00) ∧
    (send_command (.ok [0x04] 0x63 0x00) = send_command .exn ∧
     (send_command_iface (.ok [0x04] 0x63 0x00)).2 = some [0x04] ∧
     (send_command_iface .exn).2 = none) :=
  ⟨by decide, C6_failure_collapse [0x04] 0x63 0x00 (by decide)⟩

/-- Claim C1: evaluation of `process_card` at the failing input — a tag
whose identity decodes to an id with no row in the student table.  The
code computes the non-success business status `"warning"` for the UI
event, yet the success tone command is still transmitted (and it is
transmitted before the decision consumer is even scheduled). -/
theorem C1_beep_on_unknown_student :
    (process_card unknownStudentEnv [] 1000).eventStatus = some "warning" ∧
    CMD_BEEP_SUCCESS ∈ (process_card unknownStudentEnv [] 1000).sent := by
  constructor <;> decide

/-- Claim C4: with a fresh UID, the first insertion event enters the
processing pipeline; a second event for the same UID less than the
3-second debounce window later performs no transport operation beyond
the UID read and leaves the debounce map unchanged, while a second
event more than the window later is processed again. -/
theorem C4_debounce (env1 env2 : CardEnv) (map0 : List (List Byte × Nat))
    (now1 now2 : Nat) (uid : List Byte)
    (hc1 : env1.connectOk = true) (hc2 : env2.connectOk = true)
    (h1 : send_command env1.uidRead = (true, some uid))
    (h2 : send_command env2.uidRead = (true, some uid))
    (h0 : lookupUid map0 uid = none) :
    CMD_DISABLE_BEEP ∈ (process_card env1 map0 now1).sent ∧
    (now2 - now1 < debounce_ms →
      process_card env2 (process_card env1 map0 now1).map now2 =
        { map := (process_card env1 map0 now1).map
          sent := [CMD_GET_UID]
          eventStatus := none }) ∧
    (debounce_ms < now2 - now1 →
      CMD_DISABLE_BEEP ∈ (process_card env2 (process_card env1 map0 now1).map now2).sent) := by
  have hr1 : process_card env1 map0 now1 = process_card_pipeline env1 (insertUid map0 uid now1) :=
    process_card_entered env1 map0 now1 uid hc1 h1
      (fun last hl => by rw [h0] at hl; cases hl)
  have hm1 : (process_card env1 map0 now1).map = insertUid map0 uid now1 := by
    rw [hr1, process_card_pipeline_map]
  have hlook : lookupUid (process_card env1 map0 now1).map uid = some now1 := by
    rw [hm1]
    exact lookupUid_insertUid_self map0 uid now1
  refine ⟨?_, ?_, ?_⟩
  · rw [hr1]
    exact process_card_pipeline_entered _ _
  · intro hlt
    exact process_card_skipped env2 _ now2 now1 uid hc2 h2 hlook hlt
  · intro hgt
    have hr2 : process_card env2 (process_card env1 map0 now1).map now2 =
        process_card_pipeline env2 (insertUid (process_card env1 map0 now1).map uid now2) :=
      process_card_entered env2 _ now2 uid hc2 h2
        (fun last hl => by
          rw [hlook] at hl
          injection hl with e
          omega)
    rw [hr2]
    exact process_card_pipeline_entered _ _

/-- Witness for `C4_debounce`: two taps of one registered card, 1
second apart then 4 seconds apart. -/
theorem C4_debounce_witness :
    CMD_DISABLE_BEEP ∈ (process_card okStudentEnv [] 0).sent ∧
    ((1000 : Nat) - 0 < debounce_ms →
      process_card okStudentEnv (process_card okStudentEnv [] 0).map 1000 =
        { map := (process_card okStudentEnv [] 0).map
          sent := [CMD_GET_UID]
          eventStatus := none }) ∧
    (debounce_ms < (4000 : Nat) - 0 →
      CMD_DISABLE_BEEP ∈
        (process_card okStudentEnv (process_card okStudentEnv [] 0).map 4000).sent) := by
  have h := C4_debounce okStudentEnv okStudentEnv [] 0 1000 [0x04, 0xA1, 0xB2, 0xC3]
    (by decide) (by decide) (by decide) (by decide) (by decide)
  have h4 := C4_debounce okStudentEnv okStudentEnv [] 0 4000 [0x04, 0xA1, 0xB2, 0xC3]
    (by decide) (by decide) (by decide) (by decide) (by decide)
  exact ⟨h.1, h.2.1, h4.2.2⟩

/-- Claim C10: once the UID read succeeds and the debounce gate passes,
`process_card` records the UID's timestamp — and it does so no matter
how the rest of the interaction goes (unreadable identity, lock
failure, logging exception), since the map update precedes them all and
no path removes it; consequently any event for the same UID within the
window is suppressed. -/
theorem C10_timestamp_persists (env : CardEnv) (map0 : List (List Byte × Nat))
    (now : Nat) (uid : List Byte)
    (hc : env.connectOk = true)
    (h1 : send_command env.uidRead = (true, some uid))
    (hdeb : ∀ last, lookupUid map0 uid = some last → debounce_ms ≤ now - last) :
    (process_card env map0 now).map = insertUid map0 uid now ∧
    lookupUid (process_card env map0 now).map uid = some now ∧
    (∀ env2 now2, env2.connectOk = true →
      send_command env2.uidRead = (true, some uid) →
      now2 - now < debounce_ms →
      process_card env2 (process_card env map0 now).map now2 =
        { map := (process_card env map0 now).map
          sent := [CMD_GET_UID]
          eventStatus := none }) := by
  have hr : process_card env map0 now = process_card_pipeline env (insertUid map0 uid now) :=
    process_card_entered env map0 now uid hc h1 hdeb
  have hm : (process_card env map0 now).map = insertUid map0 uid now := by
    rw [hr, process_card_pipeline_map]
  have hlook : lookupUid (process_card env map0 now).map uid = some now := by
    rw [hm]
    exact lookupUid_insertUid_self map0 uid now
  exact ⟨hm, hlook, fun env2 now2 hc2 h2 hlt =>
    process_card_skipped env2 _ now2 now uid hc2 h2 hlook hlt⟩

/-- Witness for `C10_timestamp_persists`: the data read fails
(`unreadableEnv`), yet the debounce record is present afterwards. -/
theorem C10_timestamp_persists_witness :
    (process_card unreadableEnv [] 0).map = insertUid [] [0x04, 0xA1, 0xB2, 0xC3] 0 ∧
    lookupUid (process_card unreadableEnv [] 0).map [0x04, 0xA1, 0xB2, 0xC3] = some 0 ∧
    (∀ env2 now2, env2.connectOk = true →
      send_command env2.uidRead = (true, some [0x04, 0xA1, 0xB2, 0xC3]) →
      now2 - 0 < debounce_ms →
      process_card env2 (process_card unreadableEnv [] 0).map now2 =
        { map := (process_card unreadableEnv [] 0).map
          sent := [CMD_GET_UID]
          eventStatus := none }) :=
  C10_timestamp_persists unreadableEnv [] 0 [0x04, 0xA1, 0xB2, 0xC3] (by decide) (by decide)
    (fun last hl => by simp [lookupUid] at hl)

/-- Claim C7: when everything up to the static stage succeeds but the
read-back after the two static-lock writes does not show `FF FF`, the
sequencer ends with the static-stage `LockVerificationFailed` report
and the trace contains no write command addressed to the dynamic-lock
page. -/
theorem C7_static_verify_abort (env : LockEnv) (data d1 d2 vd : List Byte)
    (vs1 vs2 : Byte)
    (hInit : env.initRead = .ok data 0x90 0x00)
    (hLen : 12 ≤ data.length)
    (hConfirm : env.confirmPartial = true)
    (hW1 : env.staticWrite1 = .ok d1 0x90 0x00)
    (hW2 : env.staticWrite2 = .ok d2 0x90 0x00)
    (hV : env.staticVerifyRead = .ok vd vs1 vs2)
    (hVLen : 12 ≤ vd.length)
    (hFail : ¬(vd.getD 10 0 = 0xFF ∧ vd.getD 11 0 = 0xFF)) :
    (lockCard env).1 = LockOutcome.staticVerifyFailed ∧
    ∀ c ∈ (lockCard env).2, isDynLockWrite c = false := by
  have he : lockCard env = (LockOutcome.staticVerifyFailed,
      [READ16 0x00, WRITE4 0x02 [data.getD 8 0, data.getD 9 0, 0xFF, 0xFF],
       WRITE4 0x02 [data.getD 8 0, data.getD 9 0, 0xFF, 0xFF], READ16 0x00]) := by
    have hFail2 : ¬(vd[10]?.getD 0 = 0xFF ∧ vd[11]?.getD 0 = 0xFF) := by
      simpa [List.getD] using hFail
    simp [lockCard, hInit, hW1, hW2, hV, hConfirm, Nat.not_lt.mpr hLen,
      Nat.not_lt.mpr hVLen, hFail]
    intro hA hB
    exact absurd ⟨hA, hB⟩ hFail2
  rw [he]
  refine ⟨rfl, ?_⟩
  intro c hc
  simp only [List.mem_cons, List.not_mem_nil, or_false] at hc
  rcases hc with h | h | h | h <;> subst h <;> rfl

/-- Witness for `C7_static_verify_abort` at `staticVerifyFailEnv`. -/
theorem C7_static_verify_abort_witness :
    (lockCard staticVerifyFailEnv).1 = LockOutcome.staticVerifyFailed ∧
    ∀ c ∈ (lockCard staticVerifyFailEnv).2, isDynLockWrite c = false :=
  C7_static_verify_abort staticVerifyFailEnv (List.replicate 16 0) [] []
    (List.replicate 16 0) 0x90 0x00 rfl (by decide) rfl rfl rfl rfl (by decide) (by decide)

/-- Claim C8: when the lock page already reads back locked (bytes 1-2
are `FF FF`), `process_lock` issues no write command and still reports
success. -/
theorem C8_already_locked (lockRead lockWrite : TransmitResult) (data : List Byte)
    (h : lockRead = .ok data 0x90 0x00)
    (hLen : 3 ≤ data.length)
    (h1 : data.getD 1 0 = 0xFF) (h2 : data.getD 2 0 = 0xFF) :
    process_lock lockRead lockWrite = (true, [READ_LOCK_APDU]) ∧
    WRITE_LOCK_APDU ∉ (process_lock lockRead lockWrite).2 := by
  have hs : send_command lockRead = (true, some data) := by
    rw [h]
    simp [send_command]
  have h1p : data[1]?.getD 0 = 0xFF := by simpa [List.getD] using h1
  have h2p : data[2]?.getD 0 = 0xFF := by simpa [List.getD] using h2
  have he : process_lock lockRead lockWrite = (true, [READ_LOCK_APDU]) := by
    simp [process_lock, hs, hLen, h1p, h2p]
  refine ⟨he, ?_⟩
  rw [he]
  decide

/-- Witness for `C8_already_locked` on a tag whose lock page reads
`00 FF FF BD`. -/
theorem C8_already_locked_witness :
    process_lock (.ok [0x00, 0xFF, 0xFF, 0xBD] 0x90 0x00) .exn = (true, [READ_LOCK_APDU]) ∧
    WRITE_LOCK_APDU ∉ (process_lock (.ok [0x00, 0xFF, 0xFF, 0xBD] 0x90 0x00) .exn).2 :=
  C8_already_locked (.ok [0x00, 0xFF, 0xFF, 0xBD] 0x90 0x00) .exn [0x00, 0xFF, 0xFF, 0xBD]
    rfl (by decide) (by decide) (by decide)

end NFCGate

example : NFCGate.process_entry [] 7 "IIITKOTAUSER" (some "LUNCH") true
    = ("success", [⟨"IIITKOTAUSER", "LUNCH", 7⟩]) := by decide

example : NFCGate.process_entry [⟨"2022KUCP1033", "LUNCH", 7⟩] 7 "2022KUCP1033"
    (some "LUNCH") true = ("denied", [⟨"2022KUCP1033", "LUNCH", 7⟩]) := by decide

example : NFCGate.get_current_session true (8 * 3600) = some "BREAKFAST" := by decide

example : NFCGate.get_current_session false (23 * 3600) = none := by decide

example : NFCGate.get_current_session true (23 * 3600) = some "TEST" := by decide

example : NFCGate.read_student_data (.ok (List.replicate 16 32) 0x90 0x00) = none := by decide

example : NFCGate.read_student_data_rd (.ok (List.replicate 16 32) 0x90 0x00)
    = some (List.replicate 12 32) := by decide
